import Mathlib

/-!
Shallow embedding of `nb_cli/handlers.py` (NoneBot CLI scaffolding helper).

Python strings become Lean `String`, Python lists become Lean `List`,
fallible operations (a list `.index` that can raise `ValueError`, a
`getattr` that can raise `AttributeError`, a call with a missing required
positional argument raising `TypeError`) become explicit result
constructors.  External side effects (pip install status, the filesystem,
prompt answers) are passed in as explicit parameters; the functions return
a value describing exactly which side effect the Python code would perform.
-/

namespace NbCli

/-! ## String helpers -/

/-- Character-list version of Python `str.startswith`: does the second list
start with the first? -/
def startsWithChars : List Char → List Char → Bool
  | [], _ => true
  | _ :: _, [] => false
  | p :: ps, c :: cs => (p == c) && startsWithChars ps cs

/-- Python `s.startswith(pat)`. -/
def pyStartswith (s pat : String) : Bool :=
  startsWithChars pat.toList s.toList

/-- Python `str.lstrip()` restricted to the blank characters relevant for
source lines: drop leading spaces and tabs. -/
def pyLstrip (s : String) : String :=
  String.mk (s.toList.dropWhile (fun c => c == ' ' || c == '\t'))

/-! ## install_plugin / the file patcher (handlers.py lines 203-219) -/

/-- Anchor predicate from `install_plugin`:
`x.startswith("nonebot.load") or x.startswith("nonebot.init")`.
Note the raw line is tested, with no trimming. -/
def isAnchor (line : String) : Bool :=
  pyStartswith line "nonebot.load" || pyStartswith line "nonebot.init"

/-- Variant following the spec's words (`trimmed content starts with either
prefix`), kept only to compare against the code's `isAnchor`. -/
def isAnchorSpecTrimmed (line : String) : Bool :=
  pyStartswith (pyLstrip line) "nonebot.load" || pyStartswith (pyLstrip line) "nonebot.init"

/-- Python `list.index(True)` over a list of booleans: `some i` for the
first `True`, `none` when Python would raise `ValueError`. -/
def pyIndexTrue : List Bool → Option Nat
  | [] => none
  | b :: bs => if b then some 0 else (pyIndexTrue bs).map (fun i => i + 1)

/-- The index computation of `install_plugin`:
`len(lines) - list(map(anchor, lines[::-1])).index(True)`;
`none` models the uncaught `ValueError` when no line matches. -/
def insertIndex? (lines : List String) : Option Nat :=
  (pyIndexTrue ((lines.reverse).map isAnchor)).map (fun i => lines.length - i)

/-- Python `list.insert(i, x)`: insert `x` before position `i`
(appending when `i` is past the end). -/
def pyInsert (i : Nat) (x : α) (l : List α) : List α :=
  l.take i ++ x :: l.drop i

/-- The line inserted by `install_plugin` (with its trailing newline). -/
def loadStatement (package : String) : String :=
  "nonebot.load_plugin(\"nonebot_plugin_" ++ package ++ "\")\n"

/-- Outcome of `install_plugin` after the pip call returned `status`.
`patched` carries the full new file contents (the only case that writes);
`valueError` is the uncaught exception from the anchor search, raised
before any write; `fileNotFound` is the red message with no write;
`noOp` is the silent fall-through on nonzero status. -/
inductive InstallResult
  | patched (newLines : List String)
  | valueError
  | fileNotFound (msg : String)
  | noOp
deriving DecidableEq

/-- `install_plugin(package, file, index)` given the installer exit
`status`, whether `file` exists, and its current lines. -/
def install_plugin (status : Int) (fileExists : Bool) (lines : List String)
    (package : String) (file : String) : InstallResult :=
  if status == 0 && fileExists then
    match insertIndex? lines with
    | some i => .patched (pyInsert i (loadStatement package) lines)
    | none => .valueError
  else if status == 0 then
    .fileNotFound ("Cannot find " ++ file ++ " in current folder!")
  else
    .noOp

/-! ## run_bot (handlers.py lines 35-49) -/

/-- The module attribute values relevant to `run_bot`: a falsy value such
as `app = None`, or a truthy ASGI app object. -/
inductive PyValue
  | pyNone
  | asgiApp
deriving DecidableEq

/-- Python truthiness of the two modelled values. -/
def PyValue.truthy : PyValue → Bool
  | .pyNone => false
  | .asgiApp => true

/-- `getattr(module, name)` over a module modelled as an attribute list;
`none` models the uncaught `AttributeError` (the call has no default). -/
def lookupAttr (attrs : List (String × PyValue)) (name : String) : Option PyValue :=
  (attrs.find? (fun p => p.1 == name)).map Prod.snd

/-- Helper for `os.path.splitext`: drop characters of the reversed name up
to and including the first dot found. -/
def dropThroughDot : List Char → Option (List Char)
  | [] => none
  | c :: cs => if c == '.' then some cs else dropThroughDot cs

/-- Root part of `os.path.splitext(file)` for a plain file name: cut at
the last dot, except when every character before that dot is itself a dot
(as for `".bashrc"`, which Python keeps whole). -/
def splitextRoot (file : String) : String :=
  match dropThroughDot file.toList.reverse with
  | some rootRev => if rootRev.all (fun c => c == '.') then file else String.mk rootRev.reverse
  | none => file

/-- Outcome of `run_bot`: missing-file message and return, uncaught
`AttributeError` from `getattr`, default run loop after the warning, or
run loop with the reload-enabled `module:attr` reference. -/
inductive RunResult
  | fileMissing (msg : String)
  | attributeError (attr : String)
  | runDefault (warning : String)
  | runReload (appRef : String)
deriving DecidableEq

/-- `run_bot(file, app)` given whether `file` exists and the loaded
module's attributes. -/
def run_bot (fileExists : Bool) (attrs : List (String × PyValue))
    (file : String) (app : String) : RunResult :=
  if !fileExists then
    .fileMissing ("Cannot find " ++ file ++ " in current folder!")
  else
    match lookupAttr attrs app with
    | none => .attributeError app
    | some v =>
      if !v.truthy then
        .runDefault "Cannot find an asgi server. Add `app = nonebot.get_asgi()` to enable reload mode."
      else
        .runReload (splitextRoot file ++ ":" ++ app)

/-! ## create_project / create_plugin prompts (handlers.py lines 52-86, 137-149) -/

/-- Answers returned by `prompt`, as key-value pairs (PyInquirer returns a
dict keyed by the asked question names; on cancel keys are missing). -/
abbrev AnswerSet := List (String × String)

/-- Keys of an answer set. -/
def answerKeys (answers : AnswerSet) : List String := answers.map Prod.fst

/-- The three question names built in `create_project`. -/
def projectQuestionKeys : List String := ["project_name", "use_src", "load_builtin"]

/-- Python set equality `set(a) == set(b)` on key lists. -/
def setEqKeys (a b : List String) : Bool :=
  a.all (fun k => b.contains k) && b.all (fun k => a.contains k)

/-- Outcome of `create_project`: the red `Error Input! Missing ...`
message (carrying `keys - set(answers.keys())`) with an early return, or
the cookiecutter call with the answers as context. -/
inductive ProjectResult
  | errorInput (missing : List String)
  | generated (ctx : AnswerSet)
deriving DecidableEq

/-- `create_project()` given the prompt's answers. -/
def create_project (answers : AnswerSet) : ProjectResult :=
  if !setEqKeys projectQuestionKeys (answerKeys answers) then
    .errorInput (projectQuestionKeys.filter (fun k => !(answerKeys answers).contains k))
  else
    .generated answers

/-- Outcome of the plugin-name prompt in `create_plugin`: the red
`Error Input!` message with an early return, or the collected name. -/
inductive PluginNameResult
  | errorInput
  | gotName (name : String)
deriving DecidableEq

/-- The `plugin_name` stage of `create_plugin` (no name passed in):
checks `"plugin_name" not in answers` before reading it. -/
def create_plugin_name_stage (answers : AnswerSet) : PluginNameResult :=
  match answers.find? (fun p => p.1 == "plugin_name") with
  | some p => .gotName p.2
  | none => .errorInput

/-! ## create_plugin directory detection (handlers.py lines 151-178) -/

/-- A filesystem entry below the current directory: relative path
components plus whether it is a directory. -/
structure FSEntry where
  parts : List String
  isDir : Bool
deriving DecidableEq

/-- Posix `str(path)` of a relative path. -/
def pathStr (e : FSEntry) : String := String.intercalate "/" e.parts

/-- `Path(".").glob("**/plugins/")`: every entry (at any depth) whose last
component is `plugins`, each listed once. -/
def globPlugins (fs : List FSEntry) : List FSEntry :=
  fs.filter (fun e => e.parts.getLast? == some "plugins")

/-- The `detected` list before `"Other"` is appended:
`filter(lambda x: x.is_dir(), Path(".").glob("**/plugins/"))`. -/
def detected_plugin_dirs (fs : List FSEntry) : List FSEntry :=
  (globPlugins fs).filter (fun e => e.isDir)

/-- The `choices` shown by the `plugin_dir` list question:
`list(map(str, [*detected, "Other"]))`. -/
def plugin_dir_choices (fs : List FSEntry) : List String :=
  (detected_plugin_dirs fs).map pathStr ++ ["Other"]

/-- Validator of the manual `Plugin Dir:` prompt reached via `"Other"`:
`lambda x: len(x) > 0 and Path(x).is_dir()`. -/
def other_dir_validate (fs : List FSEntry) (x : String) : Bool :=
  decide (0 < x.length) && fs.any (fun e => pathStr e == x && e.isDir)

/-- Outcome of the `plugin_dir` stage of `create_plugin`. -/
inductive DirStageResult
  | errorInput
  | chosen (dir : String)
deriving DecidableEq

/-- The `plugin_dir` stage when no directory was passed in: the list
prompt answer, then (only when `"Other"` was picked) the manual prompt
answer; `none` models a missing key after a cancel. -/
def create_plugin_dir_stage (listAnswer : Option String)
    (manualAnswer : Option String) : DirStageResult :=
  match listAnswer with
  | none => .errorInput
  | some d =>
    if d == "Other" then
      match manualAnswer with
      | none => .errorInput
      | some m => .chosen m
    else
      .chosen d

/-! ## menu entries for docker-compose (handlers.py lines 94-134) -/

/-- A call into `_call_docker_compose(command, args)` as handed to the
external compose dispatch. -/
structure ComposeInvocation where
  command : String
  args : List String
deriving DecidableEq

/-- A pre-bound menu entry, i.e. `functools.partial(_call_docker_compose,
command, args?)`: the second positional argument may be left unbound. -/
structure ComposeMenuEntry where
  command : String
  boundArgs : Option (List String)
deriving DecidableEq

/-- `partial(_call_docker_compose, "build", [])`. -/
def buildEntry : ComposeMenuEntry := ⟨"build", some []⟩

/-- `partial(_call_docker_compose, "up", ["-d"])`. -/
def deployEntry : ComposeMenuEntry := ⟨"up", some ["-d"]⟩

/-- `partial(_call_docker_compose, "down")`: note `args` is not bound. -/
def stopEntry : ComposeMenuEntry := ⟨"down", none⟩

/-- Result of invoking a menu entry with no further arguments, as
`answers["subcommand"]()` does. -/
inductive MenuInvokeResult
  | dispatched (inv : ComposeInvocation)
  | typeError (msg : String)
deriving DecidableEq

/-- Calling the partial application: `_call_docker_compose` declares two
required positional parameters, so a call with only `command` bound raises
`TypeError` before anything is dispatched. -/
def invokeMenuEntry (e : ComposeMenuEntry) : MenuInvokeResult :=
  match e.boundArgs with
  | some a => .dispatched ⟨e.command, a⟩
  | none => .typeError "_call_docker_compose() missing 1 required positional argument: args"

/-! ## Helper lemmas -/

theorem pyIndexTrue_eq_none_iff (bs : List Bool) :
    pyIndexTrue bs = none ↔ ∀ b ∈ bs, b = false := by
  induction bs with
  | nil => simp [pyIndexTrue]
  | cons b bs ih =>
    cases b with
    | true => simp [pyIndexTrue]
    | false => simpa [pyIndexTrue] using ih

theorem pyIndexTrue_isSome_of_mem (bs : List Bool) (h : true ∈ bs) :
    ∃ i, pyIndexTrue bs = some i := by
  cases hh : pyIndexTrue bs with
  | some i => exact ⟨i, rfl⟩
  | none => exact absurd ((pyIndexTrue_eq_none_iff bs).mp hh true h) (by simp)

theorem pyIndexTrue_spec (bs : List Bool) (i : Nat) (h : pyIndexTrue bs = some i) :
    bs[i]? = some true ∧ ∀ k, k < i → bs[k]? = some false := by
  induction bs generalizing i with
  | nil => simp [pyIndexTrue] at h
  | cons b bs ih =>
    cases b with
    | true =>
      simp [pyIndexTrue] at h
      subst h
      exact ⟨by simp, fun k hk => absurd hk (by omega)⟩
    | false =>
      simp [pyIndexTrue, Option.map_eq_some'] at h
      obtain ⟨j, hj, hji⟩ := h
      subst hji
      obtain ⟨h1, h2⟩ := ih j hj
      refine ⟨by simpa using h1, fun k hk => ?_⟩
      cases k with
      | zero => simp
      | succ k => simpa using h2 k (by omega)

theorem insertIndex?_spec (lines : List String) (h : ∃ l ∈ lines, isAnchor l = true) :
    ∃ j, j < lines.length ∧
      (∃ l, lines[j]? = some l ∧ isAnchor l = true) ∧
      (∀ k l, j < k → lines[k]? = some l → isAnchor l = false) ∧
      insertIndex? lines = some (j + 1) := by
  obtain ⟨l, hl, hal⟩ := h
  have htrue : true ∈ (lines.reverse.map isAnchor) := by
    rw [List.mem_map]
    exact ⟨l, List.mem_reverse.mpr hl, hal⟩
  obtain ⟨i, hi⟩ := pyIndexTrue_isSome_of_mem _ htrue
  obtain ⟨h1, h2⟩ := pyIndexTrue_spec _ i hi
  have hi_lt : i < lines.length := by
    by_contra hcon
    have hnone : (lines.reverse.map isAnchor)[i]? = none := by
      apply List.getElem?_eq_none
      simpa using Nat.le_of_not_lt hcon
    rw [hnone] at h1
    cases h1
  refine ⟨lines.length - 1 - i, by omega, ?_, ?_, ?_⟩
  · have heq : (lines.reverse.map isAnchor)[i]? = (lines[lines.length - 1 - i]?).map isAnchor := by
      rw [List.getElem?_map, List.getElem?_reverse (by simpa using hi_lt)]
    rw [heq, Option.map_eq_some'] at h1
    obtain ⟨l', hl', hal'⟩ := h1
    exact ⟨l', hl', hal'⟩
  · intro k l' hk hkl
    have hk_lt : k < lines.length := by
      by_contra hcon
      rw [List.getElem?_eq_none (Nat.le_of_not_lt hcon)] at hkl
      cases hkl
    have hklt : lines.length - 1 - k < i := by omega
    have hlk : lines.length - 1 - k < lines.reverse.length := by
      rw [List.length_reverse]
      omega
    have hidx : lines.length - 1 - (lines.length - 1 - k) = k := by omega
    have hfalse := h2 (lines.length - 1 - k) hklt
    have heq : (lines.reverse.map isAnchor)[lines.length - 1 - k]? = (lines[k]?).map isAnchor := by
      rw [List.getElem?_map, List.getElem?_reverse (by simpa using hlk), hidx]
    rw [heq, hkl, Option.map_eq_some'] at hfalse
    obtain ⟨l'', hl'', hal''⟩ := hfalse
    cases hl''
    exact hal''
  · simp only [insertIndex?, hi, Option.map_some']
    congr 1
    omega

/-- C1: with installer status 0 and the entry file present, when some line
starts with the load-call or init-call prefix, `install_plugin` rewrites
the file to the original lines with the single new load statement inserted
immediately after the last matching line, all other lines unchanged and in
order; in particular the three-line example file gets the new line between
`nonebot.init()` and `nonebot.run()`. -/
theorem C1_install_inserts_after_last_anchor (lines : List String)
    (package file : String) (h : ∃ l ∈ lines, isAnchor l = true) :
    (∃ j, j < lines.length ∧
      (∃ l, lines[j]? = some l ∧ isAnchor l = true) ∧
      (∀ k l, j < k → lines[k]? = some l → isAnchor l = false) ∧
      install_plugin 0 true lines package file
        = .patched (lines.take (j + 1) ++ loadStatement package :: lines.drop (j + 1)))
    ∧ install_plugin 0 true ["import nonebot\n", "nonebot.init()\n", "nonebot.run()\n"] "foo" "bot.py"
        = .patched ["import nonebot\n", "nonebot.init()\n",
            "nonebot.load_plugin(\"nonebot_plugin_foo\")\n", "nonebot.run()\n"] := by
  refine ⟨?_, by decide⟩
  obtain ⟨j, hj, hanch, hafter, hins⟩ := insertIndex?_spec lines h
  refine ⟨j, hj, hanch, hafter, ?_⟩
  simp [install_plugin, hins, pyInsert]

/-- Witness for C1 at the example file of the claim. -/
theorem C1_install_inserts_after_last_anchor_witness :
    (∃ l ∈ (["import nonebot\n", "nonebot.init()\n", "nonebot.run()\n"] : List String),
      isAnchor l = true)
    ∧ ((∃ j, j < (["import nonebot\n", "nonebot.init()\n", "nonebot.run()\n"] : List String).length ∧
      (∃ l, (["import nonebot\n", "nonebot.init()\n", "nonebot.run()\n"] : List String)[j]? = some l ∧ isAnchor l = true) ∧
      (∀ k l, j < k → (["import nonebot\n", "nonebot.init()\n", "nonebot.run()\n"] : List String)[k]? = some l → isAnchor l = false) ∧
      install_plugin 0 true ["import nonebot\n", "nonebot.init()\n", "nonebot.run()\n"] "foo" "bot.py"
        = .patched ((["import nonebot\n", "nonebot.init()\n", "nonebot.run()\n"] : List String).take (j + 1)
            ++ loadStatement "foo" :: (["import nonebot\n", "nonebot.init()\n", "nonebot.run()\n"] : List String).drop (j + 1)))
    ∧ install_plugin 0 true ["import nonebot\n", "nonebot.init()\n", "nonebot.run()\n"] "foo" "bot.py"
        = .patched ["import nonebot\n", "nonebot.init()\n",
            "nonebot.load_plugin(\"nonebot_plugin_foo\")\n", "nonebot.run()\n"]) :=
  ⟨by decide, C1_install_inserts_after_last_anchor _ "foo" "bot.py" (by decide)⟩

/-- C2: with installer status 0 and the entry file present, when no line
matches the anchor prefixes the patch step hits the uncaught `ValueError`
from `.index(True)` and the file is not rewritten. -/
theorem C2_no_anchor_uncaught_error (lines : List String) (package file : String)
    (h : ∀ l ∈ lines, isAnchor l = false) :
    install_plugin 0 true lines package file = .valueError := by
  have hins : insertIndex? lines = none := by
    unfold insertIndex?
    rw [Option.map_eq_none', pyIndexTrue_eq_none_iff]
    intro b hb
    rw [List.mem_map] at hb
    obtain ⟨l, hl, rfl⟩ := hb
    exact h l (List.mem_reverse.mp hl)
  simp [install_plugin, hins]

/-- Witness for C2 on a file with no anchor line. -/
theorem C2_no_anchor_uncaught_error_witness :
    (∀ l ∈ (["print(1)\n", "x = 2\n"] : List String), isAnchor l = false)
    ∧ install_plugin 0 true ["print(1)\n", "x = 2\n"] "foo" "bot.py" = .valueError :=
  ⟨by decide, C2_no_anchor_uncaught_error _ "foo" "bot.py" (by decide)⟩

/-- C3: a nonzero installer exit status makes `install_plugin` fall through
both branches: no write, no message. -/
theorem C3_nonzero_status_no_write (status : Int) (fileExists : Bool)
    (lines : List String) (package file : String) (h : status ≠ 0) :
    install_plugin status fileExists lines package file = .noOp := by
  have hb : (status == 0) = false := by simpa using h
  simp [install_plugin, hb]

/-- Witness for C3 at exit status 1. -/
theorem C3_nonzero_status_no_write_witness :
    (1 : Int) ≠ 0 ∧ install_plugin 1 true ["nonebot.init()\n"] "foo" "bot.py" = .noOp :=
  ⟨by decide, C3_nonzero_status_no_write 1 true _ "foo" "bot.py" (by decide)⟩

/-- C8: installer status 0 with the entry file absent prints the red
file-not-found message and performs no write. -/
theorem C8_success_without_entry_file (lines : List String) (package file : String) :
    install_plugin 0 false lines package file
      = .fileNotFound ("Cannot find " ++ file ++ " in current folder!") := by
  simp [install_plugin]

/-- C4: when the answer key set differs from the asked question keys,
`create_project` prints the missing-keys error and never reaches the
cookiecutter call, and the name stage of `create_plugin` (whose answer
keys are among the asked `plugin_name`) prints the error and stops. -/
theorem C4_incomplete_answers_abort :
    (∀ answers : AnswerSet,
      setEqKeys projectQuestionKeys (answerKeys answers) = false →
      create_project answers
        = .errorInput (projectQuestionKeys.filter (fun k => !(answerKeys answers).contains k)))
    ∧ (∀ answers : AnswerSet,
      (∀ k ∈ answerKeys answers, k = "plugin_name") →
      setEqKeys ["plugin_name"] (answerKeys answers) = false →
      create_plugin_name_stage answers = .errorInput) := by
  constructor
  · intro answers h
    simp [create_project, h]
  · intro answers hsub hne
    cases hf : answers.find? (fun p => p.1 == "plugin_name") with
    | none => simp [create_plugin_name_stage, hf]
    | some q =>
      exfalso
      have hq := List.find?_some hf
      have hmem : q ∈ answers := List.mem_of_find?_eq_some hf
      have hkm : "plugin_name" ∈ answerKeys answers :=
        List.mem_map.mpr ⟨q, hmem, by simpa using hq⟩
      have hc : (answerKeys answers).contains "plugin_name" = true := by
        simpa using hkm
      have htrue : setEqKeys ["plugin_name"] (answerKeys answers) = true := by
        simp [setEqKeys]
        exact ⟨hkm, hsub⟩
      rw [htrue] at hne
      cases hne

/-- Witness for C4 at the empty (cancelled) answer set. -/
theorem C4_incomplete_answers_abort_witness :
    (setEqKeys projectQuestionKeys (answerKeys ([] : AnswerSet)) = false
      ∧ create_project []
        = .errorInput (projectQuestionKeys.filter (fun k => !(answerKeys ([] : AnswerSet)).contains k)))
    ∧ ((∀ k ∈ answerKeys ([] : AnswerSet), k = "plugin_name")
      ∧ setEqKeys ["plugin_name"] (answerKeys ([] : AnswerSet)) = false
      ∧ create_plugin_name_stage [] = .errorInput) :=
  ⟨⟨by decide, C4_incomplete_answers_abort.1 [] (by decide)⟩,
    by decide, by decide, C4_incomplete_answers_abort.2 [] (by decide) (by decide)⟩

/-- C5 counterexample: the spec-worded trimmed test accepts the indented
line `    nonebot.init()` but the code's raw `startswith` test rejects it,
so trimming is not what the code does. -/
theorem C5_trimmed_anchor_counterexample :
    isAnchorSpecTrimmed "    nonebot.init()\n" = true
    ∧ isAnchor "    nonebot.init()\n" = false := by decide

/-- C5 amended: a line is an anchor for insertion if and only if the raw
line, with no trimming, starts with `nonebot.load` or `nonebot.init`; an
indented initialization line is not an anchor, so a file whose only
initialization line is indented crashes the patch step. -/
theorem C5_anchor_iff_raw_startswith (line : String) :
    ((insertIndex? [line]).isSome
      ↔ (pyStartswith line "nonebot.load" || pyStartswith line "nonebot.init") = true)
    ∧ isAnchor "    nonebot.init()\n" = false
    ∧ install_plugin 0 true ["    nonebot.init()\n"] "foo" "bot.py" = .valueError := by
  refine ⟨?_, by decide, by decide⟩
  cases h : pyStartswith line "nonebot.load" || pyStartswith line "nonebot.init" with
  | true => simp [insertIndex?, pyIndexTrue, isAnchor, h]
  | false => simp [insertIndex?, pyIndexTrue, isAnchor, h]

/-- C6: the build and deploy menu entries reach the compose dispatch with
`build`/no args and `up`/`["-d"]`, but the stop entry binds only `down`
and leaves the required `args` parameter unbound, so invoking it raises
`TypeError` instead of dispatching `down`. -/
theorem C6_stop_entry_raises_type_error :
    invokeMenuEntry buildEntry = .dispatched ⟨"build", []⟩
    ∧ invokeMenuEntry deployEntry = .dispatched ⟨"up", ["-d"]⟩
    ∧ invokeMenuEntry stopEntry
        = .typeError "_call_docker_compose() missing 1 required positional argument: args"
    ∧ ∀ inv, invokeMenuEntry stopEntry ≠ .dispatched inv := by
  refine ⟨by decide, by decide, by decide, fun inv => by simp [invokeMenuEntry, stopEntry]⟩

/-- C7 counterexample: with the entry file present and a module that does
not define `app`, `run_bot` hits the uncaught `AttributeError` from
`getattr`, not the warning-and-default-run fallback. -/
theorem C7_absent_attribute_counterexample :
    run_bot true [] "bot.py" "app" = .attributeError "app"
    ∧ run_bot true [] "bot.py" "app"
        ≠ .runDefault "Cannot find an asgi server. Add `app = nonebot.get_asgi()` to enable reload mode." := by
  decide

/-- C7 amended: when the module does not define the named attribute,
`run_bot` raises an uncaught `AttributeError`; no fallback run and no
warning happen in that case. -/
theorem C7_absent_attribute_raises (attrs : List (String × PyValue))
    (file app : String) (h : lookupAttr attrs app = none) :
    run_bot true attrs file app = .attributeError app := by
  simp [run_bot, h]

/-- Witness for the amended C7 at the empty module. -/
theorem C7_absent_attribute_raises_witness :
    lookupAttr [] "app" = none
    ∧ run_bot true [] "bot.py" "app" = .attributeError "app" :=
  ⟨by decide, C7_absent_attribute_raises [] "bot.py" "app" (by decide)⟩

/-- C9: the plugin-directory choice list is exactly the directories whose
glob pattern matches (non-directories excluded, each rendered path once
when the rendered paths are distinct) followed by the literal `Other`;
choosing `Other` re-prompts, with the manual path validated to be a
non-empty string naming an existing directory. -/
theorem C9_plugin_dir_choice_list (fs : List FSEntry)
    (hnodup : ((detected_plugin_dirs fs).map pathStr).Nodup) :
    plugin_dir_choices fs
      = (fs.filter (fun e => (e.parts.getLast? == some "plugins") && e.isDir)).map pathStr ++ ["Other"]
    ∧ (∀ s ∈ (detected_plugin_dirs fs).map pathStr,
        ((detected_plugin_dirs fs).map pathStr).count s = 1)
    ∧ (∀ x, other_dir_validate fs x = true ↔
        0 < x.length ∧ ∃ e ∈ fs, pathStr e = x ∧ e.isDir = true)
    ∧ (∀ m, create_plugin_dir_stage (some "Other") (some m) = .chosen m) := by
  refine ⟨?_, ?_, ?_, ?_⟩
  · have hdet : detected_plugin_dirs fs
        = fs.filter (fun e => (e.parts.getLast? == some "plugins") && e.isDir) := by
      unfold detected_plugin_dirs globPlugins
      rw [List.filter_filter]
      exact List.filter_congr (fun a _ => Bool.and_comm _ _)
    unfold plugin_dir_choices
    rw [hdet]
  · intro s hs
    exact List.count_eq_one_of_mem hnodup hs
  · intro x
    simp [other_dir_validate]
  · intro m
    simp [create_plugin_dir_stage]

/-- Witness for C9 on a one-directory filesystem. -/
theorem C9_plugin_dir_choice_list_witness :
    ((detected_plugin_dirs [FSEntry.mk ["plugins"] true]).map pathStr).Nodup
    ∧ (plugin_dir_choices [FSEntry.mk ["plugins"] true]
      = ([FSEntry.mk ["plugins"] true].filter
          (fun e => (e.parts.getLast? == some "plugins") && e.isDir)).map pathStr ++ ["Other"]
    ∧ (∀ s ∈ (detected_plugin_dirs [FSEntry.mk ["plugins"] true]).map pathStr,
        ((detected_plugin_dirs [FSEntry.mk ["plugins"] true]).map pathStr).count s = 1)
    ∧ (∀ x, other_dir_validate [FSEntry.mk ["plugins"] true] x = true ↔
        0 < x.length ∧ ∃ e ∈ [FSEntry.mk ["plugins"] true], pathStr e = x ∧ e.isDir = true)
    ∧ (∀ m, create_plugin_dir_stage (some "Other") (some m) = .chosen m)) :=
  ⟨by decide, C9_plugin_dir_choice_list [FSEntry.mk ["plugins"] true] (by decide)⟩

/-- C10: with the entry file present and the attribute defined, a falsy
value sends `run_bot` down the warning-and-default-run path, and the
reload-enabled path is taken exactly when the value is truthy. -/
theorem C10_falsy_app_falls_back (attrs : List (String × PyValue))
    (file app : String) (v : PyValue) (h : lookupAttr attrs app = some v) :
    (v.truthy = false →
      run_bot true attrs file app
        = .runDefault "Cannot find an asgi server. Add `app = nonebot.get_asgi()` to enable reload mode.")
    ∧ (run_bot true attrs file app = .runReload (splitextRoot file ++ ":" ++ app)
        ↔ v.truthy = true) := by
  constructor
  · intro hv
    simp [run_bot, h, hv]
  · cases hv : v.truthy with
    | true => simp [run_bot, h, hv]
    | false => simp [run_bot, h, hv]

/-- Witness for C10 at a module with `app = None`. -/
theorem C10_falsy_app_falls_back_witness :
    lookupAttr [("app", PyValue.pyNone)] "app" = some PyValue.pyNone
    ∧ ((PyValue.pyNone.truthy = false →
      run_bot true [("app", PyValue.pyNone)] "bot.py" "app"
        = .runDefault "Cannot find an asgi server. Add `app = nonebot.get_asgi()` to enable reload mode.")
    ∧ (run_bot true [("app", PyValue.pyNone)] "bot.py" "app"
        = .runReload (splitextRoot "bot.py" ++ ":" ++ "app") ↔ PyValue.pyNone.truthy = true)) :=
  ⟨by decide, C10_falsy_app_falls_back [("app", PyValue.pyNone)] "bot.py" "app" PyValue.pyNone (by decide)⟩

end NbCli
